import Mathlib

/-!
Verification of the link moderation and persistence subsystem of the
parsha-songs repository, as a shallow embedding of `src/db.js` and the
route handlers / notification dispatcher of `src/server.js`.

The two physical backends (Postgres and SQLite) operate on the same
logical store: a list of Song rows and a list of Link rows kept in
insertion order.  SQL timestamps are modelled as natural numbers,
nullable columns as `Option`, and the JavaScript `x || null` coercion
(which turns the empty string into null) as `orNullStr`.
-/

namespace ParshaSongs

/-- A row of the `songs` table (`id` is a UUID / TEXT primary key). -/
structure Song where
  id : String
  title : String
  version : Option String
  external_url : Option String
  deriving Repr, DecidableEq

/-- A row of the `links` table. -/
structure Link where
  id : Nat
  parasha_id : String
  target_kind : String
  target_id : Option String
  song_id : String
  verse_ref : Option String
  added_by : Option String
  status : String
  approval_token : Option String
  approved_at : Option Nat
  added_at : Nat
  deriving Repr, DecidableEq

/-- The logical store shared by both backends: the `songs` and `links`
tables, rows kept in insertion order. -/
structure Store where
  songs : List Song
  links : List Link
  deriving Repr, DecidableEq

/-- JavaScript `x || null` on a nullable string: the empty string is
falsy, hence coerced to null. -/
def orNullStr (o : Option String) : Option String :=
  match o with
  | none => none
  | some s => if s = "" then none else some s

/-- The row update performed by the approve statements of
`approveLinkByToken` / `approveLinkById` in `src/db.js`:
`SET status = 'approved', approval_token = NULL,
approved_at = COALESCE(approved_at, now)`. -/
def approveRow (now : Nat) (l : Link) : Link :=
  { l with status := "approved", approval_token := none,
           approved_at := some (l.approved_at.getD now) }

/-- The row update performed by `rejectLinkById` in `src/db.js`:
`SET status = 'rejected', approval_token = NULL, approved_at = NULL`. -/
def rejectRow (l : Link) : Link :=
  { l with status := "rejected", approval_token := none, approved_at := none }

/-- `approveLinkByToken` (src/db.js lines 371-405).  `if (!token) return
null` rejects both a null and an empty-string token.  Otherwise a single
atomic UPDATE sets every row whose `approval_token` equals the token to
approved (clearing the token, coalescing `approved_at`), and the first
updated row is returned (the decoration of the returned row with the
song's title/url is elided; it does not change which row is returned nor
the store). -/
def approveLinkByToken (token : Option String) (now : Nat) (st : Store) :
    Option Link × Store :=
  match token with
  | none => (none, st)
  | some t =>
    if t = "" then (none, st)
    else
      let updated := st.links.filter (fun l => l.approval_token = some t)
      ((updated.head?).map (approveRow now),
       { st with links := (st.links.map
           (fun l => if l.approval_token = some t then approveRow now l else l)) })

/-- C1 helper: a call "succeeds" when it returns a row. -/
def tokenRedeemSucceeds (token : Option String) (now : Nat) (st : Store) : Prop :=
  (approveLinkByToken token now st).1.isSome

instance (token : Option String) (now : Nat) (st : Store) :
    Decidable (tokenRedeemSucceeds token now st) := by
  unfold tokenRedeemSucceeds; infer_instance

/-- C1: Token redemption is single-use.  A successful call returns the
updated row — status `approved`, token cleared, `approved_at` kept if
already set else `now` — and a second call with the same token on the
resulting store returns nothing, so two calls with one token never both
succeed. -/
theorem approveLinkByToken_single_use
    (st : Store) (t : String) (now now₂ : Nat) (r : Link)
    (h : (approveLinkByToken (some t) now st).1 = some r) :
    (∃ l ∈ st.links, l.approval_token = some t ∧ r = approveRow now l ∧
      r.status = "approved" ∧ r.approval_token = none ∧
      r.approved_at = some (l.approved_at.getD now)) ∧
    (approveLinkByToken (some t) now₂
        (approveLinkByToken (some t) now st).2).1 = none := by
  by_cases ht : t = ""
  · subst ht
    simp [approveLinkByToken] at h
  · constructor
    · simp only [approveLinkByToken, if_neg ht] at h
      rcases Option.map_eq_some'.mp h with ⟨l, hl, hrl⟩
      have hmem : l ∈ st.links.filter (fun l => l.approval_token = some t) :=
        List.mem_of_mem_head? hl
      rw [List.mem_filter] at hmem
      refine ⟨l, hmem.1, by simpa using hmem.2, hrl.symm, ?_, ?_, ?_⟩ <;>
        simp [← hrl, approveRow]
    · simp only [approveLinkByToken, if_neg ht]
      have hnone :
          ((st.links.map (fun l =>
              if l.approval_token = some t then approveRow now l else l)).filter
            (fun l => l.approval_token = some t)) = [] := by
        rw [List.filter_eq_nil_iff]
        intro a ha
        rcases List.mem_map.mp ha with ⟨b, _, hb⟩
        by_cases hbt : b.approval_token = some t
        · simp only [if_pos hbt] at hb
          simp [← hb, approveRow]
        · simp only [if_neg hbt] at hb
          simp [← hb, hbt]
      simp [hnone]

/-- A concrete song used by the witnesses. -/
def exSong1 : Song := ⟨"s1", "Oseh Shalom", none, none⟩

/-- A concrete pending link holding token "abc", used by the witnesses. -/
def exPending1 : Link :=
  ⟨1, "bereshit", "parasha", none, "s1", none, none, "pending", some "abc", none, 3⟩

/-- A concrete one-song one-pending-link store, used by the witnesses. -/
def exStore1 : Store := ⟨[exSong1], [exPending1]⟩

/-- C1 witness: the token "abc" of a concrete pending link is redeemed
once; a second redemption returns nothing. -/
theorem approveLinkByToken_single_use_witness :
    (approveLinkByToken (some "abc") 5 exStore1).1 = some (approveRow 5 exPending1) ∧
    ((∃ l ∈ exStore1.links, l.approval_token = some "abc" ∧
        approveRow 5 exPending1 = approveRow 5 l ∧
        (approveRow 5 exPending1).status = "approved" ∧
        (approveRow 5 exPending1).approval_token = none ∧
        (approveRow 5 exPending1).approved_at = some (l.approved_at.getD 5)) ∧
      (approveLinkByToken (some "abc") 9
        (approveLinkByToken (some "abc") 5 exStore1).2).1 = none) :=
  ⟨by decide, approveLinkByToken_single_use exStore1 "abc" 5 9 _ (by decide)⟩

/-! ## Startup migration (legacy-status backfill) -/

/-- The three valid link statuses. -/
def validLinkStatuses : List String := ["approved", "pending", "rejected"]

/-- Row condition of the Postgres startup migration UPDATE
(src/db.js lines 67-72): `status IS NULL OR status = '' OR status NOT IN
('approved','pending','rejected') OR (status = 'pending' AND
approval_token IS NULL)`.  `status` is NOT NULL, so the NULL disjunct is
modelled away. -/
def migrateLinkPg (l : Link) : Link :=
  if (l.status = "" ∨ ¬ l.status ∈ validLinkStatuses) ∨
     (l.status = "pending" ∧ l.approval_token = none) then
    { l with status := "approved" }
  else l

/-- Row condition of the SQLite startup migration UPDATE (src/db.js
lines 121-126); unlike Postgres it also matches
`approval_token = ''`. -/
def migrateLinkSqlite (l : Link) : Link :=
  if (l.status = "" ∨ ¬ l.status ∈ validLinkStatuses) ∨
     (l.status = "pending" ∧
       (l.approval_token = none ∨ l.approval_token = some "")) then
    { l with status := "approved" }
  else l

/-- The Postgres startup migration applied to the whole store. -/
def migrateStorePg (st : Store) : Store :=
  { st with links := st.links.map migrateLinkPg }

/-- The SQLite startup migration applied to the whole store. -/
def migrateStoreSqlite (st : Store) : Store :=
  { st with links := st.links.map migrateLinkSqlite }

/-- `getTotalSongs`, Postgres branch (src/db.js lines 570-582):
`SELECT COUNT(DISTINCT song_id) FROM links WHERE status = 'approved'`. -/
def getTotalSongsPg (st : Store) : Nat :=
  (((st.links.filter (fun l => l.status = "approved")).map Link.song_id).dedup).length

/-- `getTotalSongs`, SQLite branch (src/db.js lines 570-582): the very
same COUNT DISTINCT query. -/
def getTotalSongsSqlite (st : Store) : Nat :=
  (((st.links.filter (fun l => l.status = "approved")).map Link.song_id).dedup).length

/-- The backend-independent `getTotalSongs` (both branches agree). -/
def getTotalSongs : Store → Nat := getTotalSongsSqlite

/-- A legacy row on which the two startup migrations disagree: status
`pending` with an empty-string token. -/
def exLegacyLink : Link :=
  ⟨1, "noach", "parasha", none, "s1", none, none, "pending", some "", none, 2⟩

/-- The store holding only that legacy row. -/
def exLegacyStore : Store := ⟨[], [exLegacyLink]⟩

/-- C2 counterexample: the two backends do NOT normalize the same set of
legacy rows — a `pending` row with an empty-string token is left
`pending` by the Postgres migration but normalized to `approved` by the
SQLite migration, so the resulting logical stores differ. -/
theorem migration_backends_differ :
    (migrateLinkPg exLegacyLink).status = "pending" ∧
    (migrateLinkSqlite exLegacyLink).status = "approved" ∧
    migrateStorePg exLegacyStore ≠ migrateStoreSqlite exLegacyStore := by
  decide

/-- C2 (amended): on every store in which no link's `approval_token` is
the empty string, the two startup migrations produce the same logical
store; and `getTotalSongs` returns the same value on both backends for
every store. -/
theorem migration_equiv_amended (st : Store)
    (h : ∀ l ∈ st.links, l.approval_token ≠ some "") :
    migrateStorePg st = migrateStoreSqlite st ∧
    ∀ st' : Store, getTotalSongsPg st' = getTotalSongsSqlite st' := by
  refine ⟨?_, fun _ => rfl⟩
  unfold migrateStorePg migrateStoreSqlite
  have hmap : st.links.map migrateLinkPg = st.links.map migrateLinkSqlite := by
    apply List.map_congr_left
    intro l hl
    unfold migrateLinkPg migrateLinkSqlite
    have htok := h l hl
    by_cases hc : (l.status = "" ∨ ¬ l.status ∈ validLinkStatuses) ∨
        (l.status = "pending" ∧ l.approval_token = none)
    · rw [if_pos hc, if_pos ?_]
      rcases hc with hc | ⟨hp, hn⟩
      · exact Or.inl hc
      · exact Or.inr ⟨hp, Or.inl hn⟩
    · rw [if_neg hc, if_neg ?_]
      intro hc'
      rcases hc' with hc' | ⟨hp, hn | he⟩
      · exact hc (Or.inl hc')
      · exact hc (Or.inr ⟨hp, hn⟩)
      · exact htok he
  rw [hmap]

/-- C2 witness: the amended equivalence applied to a concrete store
whose pending link has a genuine (non-empty) token. -/
theorem migration_equiv_amended_witness :
    (∀ l ∈ exStore1.links, l.approval_token ≠ some "") ∧
    (migrateStorePg exStore1 = migrateStoreSqlite exStore1 ∧
      ∀ st' : Store, getTotalSongsPg st' = getTotalSongsSqlite st') :=
  ⟨by decide, migration_equiv_amended exStore1 (by decide)⟩

/-! ## Moderation by id, deletion, insertion -/

/-- `approveLinkById` (src/db.js lines 407-446).  `if (!id) return null`
rejects a falsy id (modelled: 0).  Otherwise one UPDATE sets every row
with this id to approved; when no row changed, null is returned,
otherwise the updated row is re-read (song decoration elided). -/
def approveLinkById (id : Nat) (now : Nat) (st : Store) : Option Link × Store :=
  if id = 0 then (none, st)
  else
    let changes := st.links.countP (fun l => l.id = id)
    let links := st.links.map (fun l => if l.id = id then approveRow now l else l)
    (if changes = 0 then none else links.find? (fun l => l.id = id),
     { st with links := links })

/-- `rejectLinkById` (src/db.js lines 448-487): same shape as
`approveLinkById` with the reject row update. -/
def rejectLinkById (id : Nat) (st : Store) : Option Link × Store :=
  if id = 0 then (none, st)
  else
    let changes := st.links.countP (fun l => l.id = id)
    let links := st.links.map (fun l => if l.id = id then rejectRow l else l)
    (if changes = 0 then none else links.find? (fun l => l.id = id),
     { st with links := links })

/-- `deleteLink` (src/db.js lines 536-547): deletes the rows with this
link id and returns how many were deleted. -/
def deleteLink (id : Nat) (st : Store) : Nat × Store :=
  (st.links.countP (fun l => l.id = id),
   { st with links := st.links.filter (fun l => ¬ l.id = id) })

/-- `deleteSong` (src/db.js lines 550-563): deletes the song row and —
via the FK cascade on Postgres, via an explicit child delete first on
SQLite — every link referencing it; returns how many song rows were
deleted. -/
def deleteSong (id : String) (st : Store) : Nat × Store :=
  (st.songs.countP (fun s => s.id = id),
   { songs := st.songs.filter (fun s => ¬ s.id = id),
     links := st.links.filter (fun l => ¬ l.song_id = id) })

/-- The argument record of `insertLink` (src/db.js lines 196-246). -/
structure InsertLinkArgs where
  parasha_id : String
  target_kind : String
  target_id : Option String
  song_id : String
  verse_ref : Option String
  added_by : Option String
  status : String
  approval_token : Option String
  approved_at : Option Nat
  deriving Repr, DecidableEq

/-- The id the backend generates for the next inserted link
(SERIAL / AUTOINCREMENT: strictly above every existing id). -/
def nextLinkId (st : Store) : Nat :=
  (st.links.map Link.id).foldr max 0 + 1

/-- The link row inserted by `insertLink`: the JS `x || null` coercions
applied to the optional text fields, `added_at` filled by the backend
default. -/
def insertedLink (a : InsertLinkArgs) (id addedAt : Nat) : Link :=
  { id := id, parasha_id := a.parasha_id, target_kind := a.target_kind,
    target_id := orNullStr a.target_id, song_id := a.song_id,
    verse_ref := orNullStr a.verse_ref, added_by := orNullStr a.added_by,
    status := a.status, approval_token := orNullStr a.approval_token,
    approved_at := a.approved_at, added_at := addedAt }

/-- `insertLink` (src/db.js lines 196-246): inserts one link row and
returns its generated id. -/
def insertLink (a : InsertLinkArgs) (addedAt : Nat) (st : Store) : Nat × Store :=
  (nextLinkId st,
   { st with links := st.links ++ [insertedLink a (nextLinkId st) addedAt] })

/-- Approving an approved row changes nothing further: the second
approve row update is absorbed by the first. -/
theorem approveRow_approveRow (now₁ now₂ : Nat) (l : Link) :
    approveRow now₂ (approveRow now₁ l) = approveRow now₁ l := by
  simp [approveRow]

/-- The approve row update keeps the link id. -/
theorem approveRow_id (now : Nat) (l : Link) : (approveRow now l).id = l.id := rfl

/-- C6: `approveLinkById` is idempotent — a second approve returns the
same pair (result row and store) as the first; an already-set
`approved_at` is never reset by an approve; and on a nonexistent id both
`approveLinkById` and `rejectLinkById` return nothing and leave the
store unchanged. -/
theorem approveLinkById_idempotent (st : Store) (id now₁ now₂ : Nat) :
    approveLinkById id now₂ (approveLinkById id now₁ st).2 =
      approveLinkById id now₁ st ∧
    (∀ l ∈ st.links, ∀ t, l.approved_at = some t →
      ∃ l' ∈ (approveLinkById id now₁ st).2.links,
        l'.id = l.id ∧ l'.approved_at = some t) ∧
    ((∀ l ∈ st.links, l.id ≠ id) →
      approveLinkById id now₁ st = (none, st) ∧
      rejectLinkById id st = (none, st)) := by
  refine ⟨?_, ?_, ?_⟩
  · by_cases hid : id = 0
    · simp [approveLinkById, hid]
    · simp only [approveLinkById, if_neg hid]
      have key1 : (st.links.map
            (fun l => if l.id = id then approveRow now₁ l else l)).map
            (fun l => if l.id = id then approveRow now₂ l else l) =
          st.links.map (fun l => if l.id = id then approveRow now₁ l else l) := by
        rw [List.map_map]
        apply List.map_congr_left
        intro l _
        by_cases hl : l.id = id
        · simp [Function.comp, hl, approveRow_id, approveRow_approveRow]
        · simp [Function.comp, hl]
      have key2 : (st.links.map
            (fun l => if l.id = id then approveRow now₁ l else l)).countP
            (fun l => l.id = id) = st.links.countP (fun l => l.id = id) := by
        rw [List.countP_map]
        apply List.countP_congr
        intro l _
        by_cases hl : l.id = id <;> simp [Function.comp, hl, approveRow_id]
      rw [key1, key2]
  · intro l hl t ht
    by_cases hid : id = 0
    · exact ⟨l, by simp [approveLinkById, hid, hl], rfl, ht⟩
    · refine ⟨if l.id = id then approveRow now₁ l else l, ?_, ?_, ?_⟩
      · simp only [approveLinkById, if_neg hid]
        exact List.mem_map.mpr ⟨l, hl, rfl⟩
      · by_cases hlid : l.id = id <;> simp [hlid, approveRow_id]
      · by_cases hlid : l.id = id <;> simp [hlid, approveRow, ht]
  · intro hno
    by_cases hid : id = 0
    · constructor <;> simp [approveLinkById, rejectLinkById, hid]
    · have hcount : st.links.countP (fun l => l.id = id) = 0 :=
        List.countP_eq_zero.mpr (fun l hl => by simpa using hno l hl)
      have happ : st.links.map
          (fun l => if l.id = id then approveRow now₁ l else l) = st.links := by
        rw [show st.links = st.links.map (fun l => l) from (List.map_id' st.links).symm]
        rw [List.map_map]
        apply List.map_congr_left
        intro l hl
        simp [Function.comp, hno l (by simpa using hl)]
      have hrej : st.links.map
          (fun l => if l.id = id then rejectRow l else l) = st.links := by
        rw [show st.links = st.links.map (fun l => l) from (List.map_id' st.links).symm]
        rw [List.map_map]
        apply List.map_congr_left
        intro l hl
        simp [Function.comp, hno l (by simpa using hl)]
      constructor
      · simp only [approveLinkById, if_neg hid, happ, hcount]
        rfl
      · simp only [rejectLinkById, if_neg hid, hrej, hcount]
        rfl

/-- C6 witness: on a store holding only pending link 1, approving id 1
twice equals approving it once, `approved_at` preservation holds, and
id 2 is reported not found by both moderation calls. -/
theorem approveLinkById_idempotent_witness :
    (approveLinkById 1 7 (approveLinkById 1 5 exStore1).2 =
      approveLinkById 1 5 exStore1 ∧
    (∀ l ∈ exStore1.links, ∀ t, l.approved_at = some t →
      ∃ l' ∈ (approveLinkById 1 5 exStore1).2.links,
        l'.id = l.id ∧ l'.approved_at = some t) ∧
    ((∀ l ∈ exStore1.links, l.id ≠ 1) →
      approveLinkById 1 5 exStore1 = (none, exStore1) ∧
      rejectLinkById 1 exStore1 = (none, exStore1))) ∧
    (∀ l ∈ exStore1.links, l.id ≠ 2) ∧
    (approveLinkById 2 5 exStore1 = (none, exStore1) ∧
      rejectLinkById 2 exStore1 = (none, exStore1)) :=
  ⟨approveLinkById_idempotent exStore1 1 5 7, by decide,
   (approveLinkById_idempotent exStore1 2 5 7).2.2 (by decide)⟩

/-- A concrete approved link (token cleared, `approved_at` set). -/
def exApprovedLink : Link :=
  ⟨1, "noach", "parasha", none, "s1", none, none, "approved", none, some 4, 2⟩

/-- A store holding that approved link. -/
def exApprovedStore : Store := ⟨[exSong1], [exApprovedLink]⟩

/-- A store holding the rejected image of that link. -/
def exRejectedStore : Store := ⟨[exSong1], [rejectRow exApprovedLink]⟩

/-- C5 counterexample: rejection is NOT only reachable from `pending` —
`rejectLinkById` moves a concrete `approved` link to `rejected`, and
`approveLinkById` moves a `rejected` link back to `approved`, so
transitions out of `approved` into `rejected` and out of `rejected`
do exist. -/
theorem reject_from_approved_counterexample :
    exApprovedLink ∈ exApprovedStore.links ∧
    exApprovedLink.status = "approved" ∧
    (rejectLinkById 1 exApprovedStore).1 = some (rejectRow exApprovedLink) ∧
    (rejectRow exApprovedLink).status = "rejected" ∧
    (rejectLinkById 1 exApprovedStore).2.links = [rejectRow exApprovedLink] ∧
    (approveLinkById 1 9 exRejectedStore).1 =
      some (approveRow 9 (rejectRow exApprovedLink)) ∧
    (approveRow 9 (rejectRow exApprovedLink)).status = "approved" := by
  decide

/-- C5 (amended): `rejectLinkById` rejects any existing link regardless
of its current status (in particular an `approved` one), and
`approveLinkById` likewise re-approves any existing link; what does
hold is that token redemption never touches a link whose token is
already cleared (so a `rejected` or `approved` link cannot be moved by
a token), and that no moderation operation ever sets a link's status
back to `pending`. -/
theorem status_transitions_amended :
    (∀ st id, id ≠ 0 → ∀ l ∈ st.links, l.id = id →
      ∃ l' ∈ (rejectLinkById id st).2.links, l'.id = id ∧ l'.status = "rejected") ∧
    (∀ st tok now, ∀ l ∈ st.links, l.approval_token = none →
      l ∈ (approveLinkByToken tok now st).2.links) ∧
    (∀ st id now, ∀ l' ∈ (approveLinkById id now st).2.links,
      l'.status = "pending" → l' ∈ st.links) ∧
    (∀ st id, ∀ l' ∈ (rejectLinkById id st).2.links,
      l'.status = "pending" → l' ∈ st.links) ∧
    (∀ st tok now, ∀ l' ∈ (approveLinkByToken tok now st).2.links,
      l'.status = "pending" → l' ∈ st.links) := by
  refine ⟨?_, ?_, ?_, ?_, ?_⟩
  · intro st id hid l hl hlid
    refine ⟨rejectRow l, ?_, by simp [rejectRow, hlid], by simp [rejectRow]⟩
    simp only [rejectLinkById, if_neg hid]
    exact List.mem_map.mpr ⟨l, hl, by simp [hlid]⟩
  · intro st tok now l hl htok
    match tok with
    | none => exact hl
    | some t =>
      by_cases ht : t = ""
      · simpa [approveLinkByToken, ht] using hl
      · simp only [approveLinkByToken, if_neg ht]
        exact List.mem_map.mpr ⟨l, hl, by simp [htok]⟩
  · intro st id now l' hl' hp
    by_cases hid : id = 0
    · simpa [approveLinkById, hid] using hl'
    · simp only [approveLinkById, if_neg hid] at hl'
      rcases List.mem_map.mp hl' with ⟨l, hl, hfl⟩
      by_cases hlid : l.id = id
      · rw [if_pos hlid] at hfl
        rw [← hfl] at hp
        simp [approveRow] at hp
      · rw [if_neg hlid] at hfl
        exact hfl ▸ hl
  · intro st id l' hl' hp
    by_cases hid : id = 0
    · simpa [rejectLinkById, hid] using hl'
    · simp only [rejectLinkById, if_neg hid] at hl'
      rcases List.mem_map.mp hl' with ⟨l, hl, hfl⟩
      by_cases hlid : l.id = id
      · rw [if_pos hlid] at hfl
        rw [← hfl] at hp
        simp [rejectRow] at hp
      · rw [if_neg hlid] at hfl
        exact hfl ▸ hl
  · intro st tok now l' hl' hp
    match tok with
    | none => exact hl'
    | some t =>
      by_cases ht : t = ""
      · simpa [approveLinkByToken, ht] using hl'
      · simp only [approveLinkByToken, if_neg ht] at hl'
        rcases List.mem_map.mp hl' with ⟨l, hl, hfl⟩
        by_cases hltok : l.approval_token = some t
        · rw [if_pos hltok] at hfl
          rw [← hfl] at hp
          simp [approveRow] at hp
        · rw [if_neg hltok] at hfl
          exact hfl ▸ hl

/-- C5 amended witness: rejecting the concrete approved link 1 yields a
rejected row, and a token redemption attempt leaves it in place since
its token is cleared. -/
theorem status_transitions_amended_witness :
    ((1 : Nat) ≠ 0 ∧ exApprovedLink ∈ exApprovedStore.links ∧
      exApprovedLink.id = 1 ∧
      ∃ l' ∈ (rejectLinkById 1 exApprovedStore).2.links,
        l'.id = 1 ∧ l'.status = "rejected") ∧
    (exApprovedLink.approval_token = none ∧
      exApprovedLink ∈ (approveLinkByToken (some "zzz") 4 exApprovedStore).2.links) :=
  ⟨⟨by decide, by decide, by decide,
    status_transitions_amended.1 exApprovedStore 1 (by decide) exApprovedLink
      (by decide) (by decide)⟩,
   ⟨by decide,
    status_transitions_amended.2.1 exApprovedStore (some "zzz") 4 exApprovedLink
      (by decide) (by decide)⟩⟩

/-- C8: `deleteSong` removes the song and exactly the links referencing
it, leaving every other song and link untouched; `deleteLink` removes
exactly the links with that id and never touches the songs. -/
theorem delete_cascade_frame :
    (∀ (st : Store) (id : String) (s : Song),
      s ∈ (deleteSong id st).2.songs ↔ s ∈ st.songs ∧ ¬ s.id = id) ∧
    (∀ (st : Store) (id : String) (l : Link),
      l ∈ (deleteSong id st).2.links ↔ l ∈ st.links ∧ ¬ l.song_id = id) ∧
    (∀ (st : Store) (id : Nat), (deleteLink id st).2.songs = st.songs) ∧
    (∀ (st : Store) (id : Nat) (l : Link),
      l ∈ (deleteLink id st).2.links ↔ l ∈ st.links ∧ ¬ l.id = id) := by
  refine ⟨?_, ?_, ?_, ?_⟩ <;> intro st id <;>
    simp [deleteSong, deleteLink, List.mem_filter]

/-- Every member of a list of naturals is bounded by its `foldr max 0`. -/
theorem le_foldr_max (n : Nat) (ns : List Nat) (h : n ∈ ns) :
    n ≤ ns.foldr max 0 := by
  induction ns with
  | nil => cases h
  | cons a t ih =>
    rcases List.mem_cons.mp h with h | h
    · subst h; exact Nat.le_max_left _ _
    · exact Nat.le_trans (ih h) (Nat.le_max_right _ _)

/-- The generated id of a freshly inserted link is new: no existing link
carries it. -/
theorem nextLinkId_fresh (st : Store) : ∀ l ∈ st.links, l.id ≠ nextLinkId st := by
  intro l hl
  have hle : l.id ≤ (st.links.map Link.id).foldr max 0 :=
    le_foldr_max l.id _ (List.mem_map.mpr ⟨l, hl, rfl⟩)
  have : l.id < nextLinkId st := Nat.lt_succ_of_le hle
  exact Nat.ne_of_lt this

/-- C7: `getTotalSongs` counts the distinct `song_id` values among
`approved` links; inserting a pending link (even one referencing a
brand-new song) leaves it unchanged; and approving that freshly
inserted link raises it by exactly one when its song is not already
referenced by an approved link. -/
theorem getTotalSongs_distinct_approved :
    (∀ st : Store, getTotalSongs st =
      ((st.links.filter (fun l => l.status = "approved")).map
        Link.song_id).toFinset.card) ∧
    (∀ (st : Store) (a : InsertLinkArgs) (addedAt : Nat), a.status = "pending" →
      getTotalSongs (insertLink a addedAt st).2 = getTotalSongs st) ∧
    (∀ (st : Store) (a : InsertLinkArgs) (addedAt now : Nat),
      a.status = "pending" →
      (∀ l ∈ st.links, l.status = "approved" → l.song_id ≠ a.song_id) →
      getTotalSongs (approveLinkById (insertLink a addedAt st).1 now
        (insertLink a addedAt st).2).2 = getTotalSongs st + 1) := by
  have hcard : ∀ st : Store, getTotalSongs st =
      ((st.links.filter (fun l => l.status = "approved")).map
        Link.song_id).toFinset.card := by
    intro st
    rw [List.card_toFinset]
    rfl
  refine ⟨hcard, ?_, ?_⟩
  · intro st a addedAt ha
    unfold getTotalSongs getTotalSongsSqlite
    simp [insertLink, List.filter_append, insertedLink, ha]
  · intro st a addedAt now ha hnew
    have hid0 : nextLinkId st ≠ 0 := Nat.succ_ne_zero _
    have hlinks : (approveLinkById (insertLink a addedAt st).1 now
        (insertLink a addedAt st).2).2.links =
        st.links ++ [approveRow now (insertedLink a (nextLinkId st) addedAt)] := by
      simp only [insertLink, approveLinkById, if_neg hid0]
      rw [List.map_append]
      congr 1
      · rw [show st.links = st.links.map (fun l => l) from (List.map_id' st.links).symm]
        rw [List.map_map]
        apply List.map_congr_left
        intro l hl
        simp [Function.comp, nextLinkId_fresh st l (by simpa using hl)]
      · simp [insertedLink]
    rw [hcard, hlinks, hcard st]
    rw [List.filter_append]
    have happr : (([approveRow now (insertedLink a (nextLinkId st) addedAt)]).filter
        (fun l => l.status = "approved")) =
        [approveRow now (insertedLink a (nextLinkId st) addedAt)] := by
      simp [approveRow]
    rw [happr, List.map_append]
    have hsong : (approveRow now (insertedLink a (nextLinkId st) addedAt)).song_id =
        a.song_id := rfl
    rw [List.toFinset_append]
    have hnotmem : a.song_id ∉
        ((st.links.filter (fun l => l.status = "approved")).map
          Link.song_id).toFinset := by
      rw [List.mem_toFinset]
      intro hmem
      rcases List.mem_map.mp hmem with ⟨l, hlf, hsid⟩
      rw [List.mem_filter] at hlf
      exact hnew l hlf.1 (by simpa using hlf.2) hsid
    simp only [List.map_cons, List.map_nil, hsong, List.toFinset_cons,
      List.toFinset_nil, insert_emptyc_eq]
    rw [Finset.union_comm]
    rw [← Finset.insert_eq]
    exact Finset.card_insert_of_not_mem hnotmem

/-- C7 witness: a concrete pending insertion of a brand-new song does
not change `getTotalSongs`, and approving it raises the count by one. -/
theorem getTotalSongs_distinct_approved_witness :
    ((⟨"noach", "parasha", none, "s9", none, none, "pending",
        some "tok9", none⟩ : InsertLinkArgs).status = "pending" ∧
      getTotalSongs (insertLink
        ⟨"noach", "parasha", none, "s9", none, none, "pending",
          some "tok9", none⟩ 8 exApprovedStore).2 =
        getTotalSongs exApprovedStore) ∧
    ((∀ l ∈ exApprovedStore.links, l.status = "approved" → l.song_id ≠ "s9") ∧
      getTotalSongs (approveLinkById (insertLink
          ⟨"noach", "parasha", none, "s9", none, none, "pending",
            some "tok9", none⟩ 8 exApprovedStore).1 9
        (insertLink ⟨"noach", "parasha", none, "s9", none, none, "pending",
            some "tok9", none⟩ 8 exApprovedStore).2).2 =
        getTotalSongs exApprovedStore + 1) :=
  ⟨⟨by decide, getTotalSongs_distinct_approved.2.1 exApprovedStore
      ⟨"noach", "parasha", none, "s9", none, none, "pending",
        some "tok9", none⟩ 8 (by decide)⟩,
   ⟨by decide, getTotalSongs_distinct_approved.2.2 exApprovedStore
      ⟨"noach", "parasha", none, "s9", none, none, "pending",
        some "tok9", none⟩ 8 9 (by decide) (by decide)⟩⟩

/-! ## Listing queries -/

/-- The projected row returned by the listing queries
(src/db.js lines 249-368): link columns joined with the song's title
and external url. -/
structure LinkRow where
  id : Nat
  parasha_id : String
  target_kind : String
  target_id : Option String
  verse_ref : Option String
  status : String
  approved_at : Option Nat
  added_at : Nat
  song_title : String
  song_url : Option String
  deriving Repr, DecidableEq

/-- Projection of a link joined with a song into a result row. -/
def linkRowOf (l : Link) (s : Song) : LinkRow :=
  ⟨l.id, l.parasha_id, l.target_kind, l.target_id, l.verse_ref, l.status,
   l.approved_at, l.added_at, s.title, s.external_url⟩

/-- `JOIN songs s ON l.song_id = s.id`: `songs.id` is the primary key,
so a link row joins with the (first) song carrying its `song_id`, and is
dropped when no such song exists. -/
def joinSong (st : Store) (l : Link) : Option LinkRow :=
  (st.songs.find? (fun s => s.id = l.song_id)).map (linkRowOf l)

/-- `ORDER BY l.added_at DESC`: later rows sort before earlier ones. -/
def rowDescOrder (a b : LinkRow) : Prop := b.added_at ≤ a.added_at

instance : DecidableRel rowDescOrder := fun a b => Nat.decLe b.added_at a.added_at

instance : IsTotal LinkRow rowDescOrder :=
  ⟨fun a b => Nat.le_total b.added_at a.added_at⟩

instance : IsTrans LinkRow rowDescOrder :=
  ⟨fun _ _ _ h₁ h₂ => Nat.le_trans h₂ h₁⟩

/-- The sort applied by the listing queries. -/
def sortByAddedAtDesc (rows : List LinkRow) : List LinkRow :=
  List.insertionSort rowDescOrder rows

/-- The optional status clause: when the filter list is empty, no
condition is added at all (src/db.js lines 272-275, 300-304, 333-336,
359-363). -/
def matchesStatuses (statuses : List String) (l : Link) : Bool :=
  if statuses.isEmpty then true else statuses.contains l.status

/-- The WHERE clause of `getLinksByParasha`: parasha key plus the
optional target-kind condition. -/
def matchesParasha (pid : String) (tk : Option String) (l : Link) : Bool :=
  decide (l.parasha_id = pid) &&
    (match tk with
     | none => true
     | some k => decide (l.target_kind = k))

/-- `getLinksByParasha` (src/db.js lines 249-308).  The source defaults
`statuses` to `["approved"]`; callers of the model pass the filter
explicitly. -/
def getLinksByParasha (pid : String) (tk : Option String)
    (statuses : List String) (st : Store) : List LinkRow :=
  sortByAddedAtDesc
    ((st.links.filter
        (fun l => matchesParasha pid tk l && matchesStatuses statuses l)).filterMap
      (joinSong st))

/-- The composite target key `"<book_id>:<chapter>"` of a Tanach link. -/
def tanachKey (book_id : String) (chapter : Nat) : String :=
  book_id ++ ":" ++ toString chapter

/-- The WHERE clause of `getLinksByTanach`: kind `tanach` plus the
composite key. -/
def matchesTanach (book_id : String) (chapter : Nat) (l : Link) : Bool :=
  decide (l.target_kind = "tanach") &&
    decide (l.target_id = some (tanachKey book_id chapter))

/-- `getLinksByTanach` (src/db.js lines 311-368), statuses explicit as
above. -/
def getLinksByTanach (book_id : String) (chapter : Nat)
    (statuses : List String) (st : Store) : List LinkRow :=
  sortByAddedAtDesc
    ((st.links.filter
        (fun l => matchesTanach book_id chapter l &&
          matchesStatuses statuses l)).filterMap
      (joinSong st))

/-- Membership in either listing query, unsorted core form: a row is in
the output iff some stored link matches the WHERE clause and joins to
it. -/
theorem mem_sortByAddedAtDesc (r : LinkRow) (rows : List LinkRow) :
    r ∈ sortByAddedAtDesc rows ↔ r ∈ rows :=
  (List.perm_insertionSort rowDescOrder rows).mem_iff

/-- Core membership of a listing query: a row is output iff some stored
link passes the WHERE clause and joins to it. -/
theorem mem_query (st : Store) (p : Link → Bool) (r : LinkRow) :
    r ∈ sortByAddedAtDesc ((st.links.filter p).filterMap (joinSong st)) ↔
      ∃ l ∈ st.links, p l = true ∧ joinSong st l = some r := by
  rw [mem_sortByAddedAtDesc, List.mem_filterMap]
  constructor
  · rintro ⟨l, hl, hj⟩
    rw [List.mem_filter] at hl
    exact ⟨l, hl.1, hl.2, hj⟩
  · rintro ⟨l, hl, hp, hj⟩
    exact ⟨l, List.mem_filter.mpr ⟨hl, hp⟩, hj⟩

/-- A joined row carries the link's id, status and timestamp. -/
theorem joinSong_fields {st : Store} {l : Link} {r : LinkRow}
    (h : joinSong st l = some r) :
    r.id = l.id ∧ r.status = l.status ∧ r.added_at = l.added_at := by
  rcases Option.map_eq_some'.mp h with ⟨s, _, rfl⟩
  exact ⟨rfl, rfl, rfl⟩

/-- When the link's song exists in the store, the join produces a row. -/
theorem joinSong_isSome {st : Store} {l : Link}
    (h : ∃ s ∈ st.songs, s.id = l.song_id) :
    ∃ r, joinSong st l = some r := by
  rcases h with ⟨s, hs, hid⟩
  have : (st.songs.find? (fun s => s.id = l.song_id)).isSome := by
    rw [List.find?_isSome]
    exact ⟨s, hs, by simp [hid]⟩
  rcases Option.isSome_iff_exists.mp this with ⟨s', hs'⟩
  exact ⟨linkRowOf l s', by simp [joinSong, hs']⟩

/-- The default status filter `["approved"]` matches exactly the
approved rows. -/
theorem matchesStatuses_default (l : Link) :
    matchesStatuses ["approved"] l = true ↔ l.status = "approved" := by
  simp [matchesStatuses]

/-- C4: with the default status filter both listing queries return
exactly the matching approved links — never a pending or rejected
row — each joined with its song, sorted by `added_at` descending. -/
theorem getLinks_default_filter_approved_only
    (st : Store) (pid : String) (tk : Option String) (book : String)
    (chapter : Nat)
    (hwf : ∀ l ∈ st.links, ∃ s ∈ st.songs, s.id = l.song_id) :
    (∀ r, r ∈ getLinksByParasha pid tk ["approved"] st ↔
      ∃ l ∈ st.links, matchesParasha pid tk l = true ∧
        l.status = "approved" ∧ joinSong st l = some r) ∧
    (∀ r ∈ getLinksByParasha pid tk ["approved"] st,
      r.status = "approved" ∧ r.status ≠ "pending" ∧ r.status ≠ "rejected") ∧
    (∀ l ∈ st.links, matchesParasha pid tk l = true → l.status = "approved" →
      ∃ r ∈ getLinksByParasha pid tk ["approved"] st, r.id = l.id) ∧
    List.Sorted rowDescOrder (getLinksByParasha pid tk ["approved"] st) ∧
    (∀ r, r ∈ getLinksByTanach book chapter ["approved"] st ↔
      ∃ l ∈ st.links, matchesTanach book chapter l = true ∧
        l.status = "approved" ∧ joinSong st l = some r) ∧
    (∀ r ∈ getLinksByTanach book chapter ["approved"] st,
      r.status = "approved" ∧ r.status ≠ "pending" ∧ r.status ≠ "rejected") ∧
    (∀ l ∈ st.links, matchesTanach book chapter l = true →
      l.status = "approved" →
      ∃ r ∈ getLinksByTanach book chapter ["approved"] st, r.id = l.id) ∧
    List.Sorted rowDescOrder (getLinksByTanach book chapter ["approved"] st) := by
  have memP : ∀ r, r ∈ getLinksByParasha pid tk ["approved"] st ↔
      ∃ l ∈ st.links, matchesParasha pid tk l = true ∧
        l.status = "approved" ∧ joinSong st l = some r := by
    intro r
    rw [getLinksByParasha, mem_query]
    constructor
    · rintro ⟨l, hl, hp, hj⟩
      rw [Bool.and_eq_true] at hp
      exact ⟨l, hl, hp.1, (matchesStatuses_default l).mp hp.2, hj⟩
    · rintro ⟨l, hl, hm, hs, hj⟩
      refine ⟨l, hl, ?_, hj⟩
      rw [Bool.and_eq_true]
      exact ⟨hm, (matchesStatuses_default l).mpr hs⟩
  have memT : ∀ r, r ∈ getLinksByTanach book chapter ["approved"] st ↔
      ∃ l ∈ st.links, matchesTanach book chapter l = true ∧
        l.status = "approved" ∧ joinSong st l = some r := by
    intro r
    rw [getLinksByTanach, mem_query]
    constructor
    · rintro ⟨l, hl, hp, hj⟩
      rw [Bool.and_eq_true] at hp
      exact ⟨l, hl, hp.1, (matchesStatuses_default l).mp hp.2, hj⟩
    · rintro ⟨l, hl, hm, hs, hj⟩
      refine ⟨l, hl, ?_, hj⟩
      rw [Bool.and_eq_true]
      exact ⟨hm, (matchesStatuses_default l).mpr hs⟩
  refine ⟨memP, ?_, ?_, List.sorted_insertionSort _ _, memT, ?_, ?_,
    List.sorted_insertionSort _ _⟩
  · intro r hr
    rcases (memP r).mp hr with ⟨l, _, _, hs, hj⟩
    have := (joinSong_fields hj).2.1
    rw [this, hs]
    exact ⟨rfl, by decide, by decide⟩
  · intro l hl hm hs
    rcases joinSong_isSome (hwf l hl) with ⟨r, hj⟩
    exact ⟨r, (memP r).mpr ⟨l, hl, hm, hs, hj⟩, (joinSong_fields hj).1⟩
  · intro r hr
    rcases (memT r).mp hr with ⟨l, _, _, hs, hj⟩
    have := (joinSong_fields hj).2.1
    rw [this, hs]
    exact ⟨rfl, by decide, by decide⟩
  · intro l hl hm hs
    rcases joinSong_isSome (hwf l hl) with ⟨r, hj⟩
    exact ⟨r, (memT r).mpr ⟨l, hl, hm, hs, hj⟩, (joinSong_fields hj).1⟩

/-- A pending link under parasha "bereshit". -/
def exPendingB : Link :=
  ⟨1, "bereshit", "parasha", none, "s1", none, none, "pending", some "t1", none, 3⟩

/-- A rejected link under parasha "bereshit". -/
def exRejectedB : Link :=
  ⟨2, "bereshit", "parasha", none, "s1", none, none, "rejected", none, none, 5⟩

/-- An approved tanach link for Genesis chapter 1. -/
def exTanachA : Link :=
  ⟨3, "genesis", "tanach", some "genesis:1", "s1", none, none, "approved",
   none, some 6, 4⟩

/-- A store mixing pending, rejected and approved links. -/
def exQueryStore : Store := ⟨[exSong1], [exPendingB, exRejectedB, exTanachA]⟩

/-- C4 witness: the conclusion instantiated on the mixed concrete store
(in particular, its default-filter parasha listing for "bereshit" is
empty because both matching links are unmoderated). -/
theorem getLinks_default_filter_approved_only_witness :
    (∀ l ∈ exQueryStore.links, ∃ s ∈ exQueryStore.songs, s.id = l.song_id) ∧
    (∀ r ∈ getLinksByParasha "bereshit" none ["approved"] exQueryStore,
      r.status = "approved" ∧ r.status ≠ "pending" ∧ r.status ≠ "rejected") ∧
    (∀ l ∈ exQueryStore.links, matchesTanach "genesis" 1 l = true →
      l.status = "approved" →
      ∃ r ∈ getLinksByTanach "genesis" 1 ["approved"] exQueryStore,
        r.id = l.id) ∧
    getLinksByParasha "bereshit" none ["approved"] exQueryStore = [] :=
  ⟨by decide,
   (getLinks_default_filter_approved_only exQueryStore "bereshit" none
      "genesis" 1 (by decide)).2.1,
   (getLinks_default_filter_approved_only exQueryStore "bereshit" none
      "genesis" 1 (by decide)).2.2.2.2.2.2.1,
   by decide⟩

/-- C10: an explicit empty status filter applies no status condition:
both queries return every matching link of every status (pending and
rejected included), not no rows. -/
theorem getLinks_empty_filter_all_statuses
    (st : Store) (pid : String) (tk : Option String) (book : String)
    (chapter : Nat)
    (hwf : ∀ l ∈ st.links, ∃ s ∈ st.songs, s.id = l.song_id) :
    (∀ r, r ∈ getLinksByParasha pid tk [] st ↔
      ∃ l ∈ st.links, matchesParasha pid tk l = true ∧
        joinSong st l = some r) ∧
    (∀ l ∈ st.links, matchesParasha pid tk l = true →
      ∃ r ∈ getLinksByParasha pid tk [] st, r.id = l.id ∧ r.status = l.status) ∧
    (∀ r, r ∈ getLinksByTanach book chapter [] st ↔
      ∃ l ∈ st.links, matchesTanach book chapter l = true ∧
        joinSong st l = some r) ∧
    (∀ l ∈ st.links, matchesTanach book chapter l = true →
      ∃ r ∈ getLinksByTanach book chapter [] st,
        r.id = l.id ∧ r.status = l.status) := by
  have hempty : ∀ l : Link, matchesStatuses [] l = true := by
    intro l; rfl
  have memP : ∀ r, r ∈ getLinksByParasha pid tk [] st ↔
      ∃ l ∈ st.links, matchesParasha pid tk l = true ∧
        joinSong st l = some r := by
    intro r
    rw [getLinksByParasha, mem_query]
    constructor
    · rintro ⟨l, hl, hp, hj⟩
      rw [Bool.and_eq_true] at hp
      exact ⟨l, hl, hp.1, hj⟩
    · rintro ⟨l, hl, hm, hj⟩
      refine ⟨l, hl, ?_, hj⟩
      rw [Bool.and_eq_true]
      exact ⟨hm, hempty l⟩
  have memT : ∀ r, r ∈ getLinksByTanach book chapter [] st ↔
      ∃ l ∈ st.links, matchesTanach book chapter l = true ∧
        joinSong st l = some r := by
    intro r
    rw [getLinksByTanach, mem_query]
    constructor
    · rintro ⟨l, hl, hp, hj⟩
      rw [Bool.and_eq_true] at hp
      exact ⟨l, hl, hp.1, hj⟩
    · rintro ⟨l, hl, hm, hj⟩
      refine ⟨l, hl, ?_, hj⟩
      rw [Bool.and_eq_true]
      exact ⟨hm, hempty l⟩
  refine ⟨memP, ?_, memT, ?_⟩
  · intro l hl hm
    rcases joinSong_isSome (hwf l hl) with ⟨r, hj⟩
    exact ⟨r, (memP r).mpr ⟨l, hl, hm, hj⟩,
      (joinSong_fields hj).1, (joinSong_fields hj).2.1⟩
  · intro l hl hm
    rcases joinSong_isSome (hwf l hl) with ⟨r, hj⟩
    exact ⟨r, (memT r).mpr ⟨l, hl, hm, hj⟩,
      (joinSong_fields hj).1, (joinSong_fields hj).2.1⟩

/-- C10 witness: on the mixed store, the "bereshit" listing with an
explicit empty filter returns the pending and the rejected row (where
the default filter returned none). -/
theorem getLinks_empty_filter_all_statuses_witness :
    (∀ l ∈ exQueryStore.links, ∃ s ∈ exQueryStore.songs, s.id = l.song_id) ∧
    (∀ l ∈ exQueryStore.links, matchesParasha "bereshit" none l = true →
      ∃ r ∈ getLinksByParasha "bereshit" none [] exQueryStore,
        r.id = l.id ∧ r.status = l.status) ∧
    (getLinksByParasha "bereshit" none [] exQueryStore).length = 2 ∧
    (∃ r ∈ getLinksByParasha "bereshit" none [] exQueryStore,
      r.status = "pending") ∧
    (∃ r ∈ getLinksByParasha "bereshit" none [] exQueryStore,
      r.status = "rejected") :=
  ⟨by decide,
   (getLinks_empty_filter_all_statuses exQueryStore "bereshit" none
      "genesis" 1 (by decide)).2.1,
   by decide, by decide, by decide⟩

/-! ## Link submission (POST /api/links handler, src/server.js) -/

/-- One hex digit, as produced by Buffer `toString("hex")`. -/
def hexDigit (n : Nat) : Char :=
  "0123456789abcdef".toList.getD (n % 16) '0'

/-- Hex encoding of a byte list: two lowercase hex digits per byte. -/
def bytesToHexChars : List Nat → List Char
  | [] => []
  | b :: bs => hexDigit (b / 16) :: hexDigit b :: bytesToHexChars bs

/-- The approval token minted by the handler:
`crypto.randomBytes(24).toString("hex")` applied to the given byte
list. -/
def bytesToHex (bs : List Nat) : String :=
  String.mk (bytesToHexChars bs)

/-- Hex encoding yields two characters per byte. -/
theorem bytesToHexChars_length (bs : List Nat) :
    (bytesToHexChars bs).length = 2 * bs.length := by
  induction bs with
  | nil => rfl
  | cons b t ih => simp [bytesToHexChars, ih]; omega

/-- The minted token string has fixed length, twice the byte count. -/
theorem bytesToHex_length (bs : List Nat) :
    (bytesToHex bs).length = 2 * bs.length :=
  bytesToHexChars_length bs

/-- `x || null` keeps a non-empty string. -/
theorem orNullStr_some {s : String} (h : s ≠ "") :
    orNullStr (some s) = some s := by
  simp [orNullStr, h]

/-- `findSongByTitleUrl` (src/db.js lines 149-163): the first song whose
title matches and whose url (null read as the empty string, the argument
passed through `external_url || null`) matches. -/
def findSongByTitleUrl (title : String) (external_url : Option String)
    (st : Store) : Option Song :=
  st.songs.find? (fun s =>
    decide (s.title = title) &&
      decide (s.external_url.getD "" = (orNullStr external_url).getD ""))

/-- `insertSong` (src/db.js lines 166-179). -/
def insertSong (id title : String) (version external_url : Option String)
    (st : Store) : Store :=
  { st with songs :=
      st.songs ++ [⟨id, title, orNullStr version, orNullStr external_url⟩] }

/-- The validated body of POST /api/links (after the zod schema's trims
and transforms): `book_id`/`chapter` are meaningful only when
`target_kind = "tanach"`, where the schema guarantees their presence. -/
structure SubmitReq where
  parasha_id : String
  target_kind : String
  target_id : Option String
  book_id : String
  chapter : Nat
  songTitle : String
  songUrl : Option String
  verse_ref : Option String
  added_by : Option String
  deriving Repr, DecidableEq

/-- What the handler responds with, plus whether the notification
dispatch was issued. -/
structure SubmitOutcome where
  link_id : Nat
  status : String
  notified : Bool
  deriving Repr, DecidableEq

/-- The song id resolved by the handler: the existing matching song's
id, else the freshly generated UUID. -/
def submitSongId (req : SubmitReq) (newSongId : String) (st : Store) : String :=
  match findSongByTitleUrl req.songTitle (orNullStr req.songUrl) st with
  | some s => s.id
  | none => newSongId

/-- The store after the find-or-create song step of the handler. -/
def submitStoreAfterSong (req : SubmitReq) (newSongId : String) (st : Store) :
    Store :=
  match findSongByTitleUrl req.songTitle (orNullStr req.songUrl) st with
  | some _ => st
  | none => insertSong newSongId req.songTitle none (orNullStr req.songUrl) st

/-- The `insertLink` arguments built by the handler (src/server.js POST
/api/links, lines 301-328): target fields per kind, status / token /
approved_at per admin session. -/
def submitArgs (isAdmin : Bool) (randomBytes : List Nat) (newSongId : String)
    (now : Nat) (req : SubmitReq) (st : Store) : InsertLinkArgs :=
  ⟨(if req.target_kind = "tanach" then req.book_id else req.parasha_id),
   req.target_kind,
   (if req.target_kind = "tanach" then some (tanachKey req.book_id req.chapter)
    else if req.target_kind = "haftarah" then req.target_id else none),
   submitSongId req newSongId st,
   req.verse_ref, req.added_by,
   (if isAdmin then "approved" else "pending"),
   (if isAdmin then none else some (bytesToHex randomBytes)),
   (if isAdmin then some now else none)⟩

/-- The POST /api/links handler (src/server.js lines 261-349) after
validation: resolve-or-create the song, insert the link (pending with a
fresh 24-random-byte hex token for anonymous submitters, approved with
`approved_at = now` and no token for a moderator session), dispatch the
notification only for anonymous submissions, and respond with the new
id and status. -/
def submitLink (isAdmin : Bool) (randomBytes : List Nat) (newSongId : String)
    (now : Nat) (req : SubmitReq) (st : Store) : SubmitOutcome × Store :=
  let st₁ := submitStoreAfterSong req newSongId st
  let a := submitArgs isAdmin randomBytes newSongId now req st
  (⟨(insertLink a now st₁).1,
    (if isAdmin then "approved" else "pending"), !isAdmin⟩,
   (insertLink a now st₁).2)

/-- C3: a moderator submission creates the link directly `approved`
(`approved_at = now`, no token) and dispatches no notification; an
anonymous submission creates it `pending` (no `approved_at`) with a
fresh fixed-length (48 hex characters from 24 random bytes) token, and
dispatches the notification. -/
theorem submitLink_status_token (isAdmin : Bool) (bytes : List Nat)
    (newSongId : String) (now : Nat) (req : SubmitReq) (st : Store)
    (hb : bytes.length = 24) :
    ∃ l ∈ (submitLink isAdmin bytes newSongId now req st).2.links,
      l.id = (submitLink isAdmin bytes newSongId now req st).1.link_id ∧
      l.added_at = now ∧
      (isAdmin = true →
        l.status = "approved" ∧ l.approved_at = some now ∧
        l.approval_token = none ∧
        (submitLink isAdmin bytes newSongId now req st).1.notified = false ∧
        (submitLink isAdmin bytes newSongId now req st).1.status = "approved") ∧
      (isAdmin = false →
        l.status = "pending" ∧ l.approved_at = none ∧
        (∃ tok, l.approval_token = some tok ∧ tok.length = 48) ∧
        (submitLink isAdmin bytes newSongId now req st).1.notified = true ∧
        (submitLink isAdmin bytes newSongId now req st).1.status = "pending") := by
  have htok : bytesToHex bytes ≠ "" := by
    intro he
    have := bytesToHex_length bytes
    rw [he, hb] at this
    simp [String.length] at this
  refine ⟨insertedLink (submitArgs isAdmin bytes newSongId now req st)
      (nextLinkId (submitStoreAfterSong req newSongId st)) now, ?_, rfl, rfl,
    ?_, ?_⟩
  · simp [submitLink, insertLink]
  · intro ha
    subst ha
    exact ⟨rfl, rfl, rfl, rfl, rfl⟩
  · intro ha
    subst ha
    refine ⟨rfl, rfl, ⟨bytesToHex bytes, ?_, ?_⟩, rfl, rfl⟩
    · show orNullStr (some (bytesToHex bytes)) = some (bytesToHex bytes)
      exact orNullStr_some htok
    · rw [bytesToHex_length, hb]

/-- Twenty-four concrete "random" bytes. -/
def exBytes24 : List Nat :=
  [0, 1, 2, 3, 4, 5, 6, 7, 8, 9, 10, 11, 12, 13, 14, 15, 16, 17, 18, 19,
   20, 21, 22, 23]

/-- A concrete validated submission body (parasha kind). -/
def exSubmitReq : SubmitReq :=
  ⟨"bereshit", "parasha", none, "genesis", 1, "Adon Olam",
   some "https://example.com/a", none, none⟩

/-- C3 witness: a concrete anonymous submission and a concrete moderator
submission on the one-link store. -/
theorem submitLink_status_token_witness :
    (List.length exBytes24 = 24 ∧
      ∃ l ∈ (submitLink false exBytes24 "s9" 11 exSubmitReq exStore1).2.links,
        l.id = (submitLink false exBytes24 "s9" 11 exSubmitReq exStore1).1.link_id ∧
        l.added_at = 11 ∧
        ((false : Bool) = true →
          l.status = "approved" ∧ l.approved_at = some 11 ∧
          l.approval_token = none ∧
          (submitLink false exBytes24 "s9" 11 exSubmitReq exStore1).1.notified = false ∧
          (submitLink false exBytes24 "s9" 11 exSubmitReq exStore1).1.status = "approved") ∧
        ((false : Bool) = false →
          l.status = "pending" ∧ l.approved_at = none ∧
          (∃ tok, l.approval_token = some tok ∧ tok.length = 48) ∧
          (submitLink false exBytes24 "s9" 11 exSubmitReq exStore1).1.notified = true ∧
          (submitLink false exBytes24 "s9" 11 exSubmitReq exStore1).1.status = "pending")) ∧
    (∃ l ∈ (submitLink true exBytes24 "s9" 11 exSubmitReq exStore1).2.links,
      l.id = (submitLink true exBytes24 "s9" 11 exSubmitReq exStore1).1.link_id ∧
      l.added_at = 11 ∧
      ((true : Bool) = true →
        l.status = "approved" ∧ l.approved_at = some 11 ∧
        l.approval_token = none ∧
        (submitLink true exBytes24 "s9" 11 exSubmitReq exStore1).1.notified = false ∧
        (submitLink true exBytes24 "s9" 11 exSubmitReq exStore1).1.status = "approved") ∧
      ((true : Bool) = false →
        l.status = "pending" ∧ l.approved_at = none ∧
        (∃ tok, l.approval_token = some tok ∧ tok.length = 48) ∧
        (submitLink true exBytes24 "s9" 11 exSubmitReq exStore1).1.notified = true ∧
        (submitLink true exBytes24 "s9" 11 exSubmitReq exStore1).1.status = "pending")) :=
  ⟨⟨by decide,
    submitLink_status_token false exBytes24 "s9" 11 exSubmitReq exStore1 (by decide)⟩,
   submitLink_status_token true exBytes24 "s9" 11 exSubmitReq exStore1 (by decide)⟩

/-! ## Notification dispatcher (notifyNewLink, src/server.js) -/

/-- Which delivery channels the environment configures: a webhook URL,
a Brevo API key, a notification address, and an SMTP transporter (built
iff host, user and password are all set). -/
structure NotifyConfig where
  webhook : Bool
  brevoApiKey : Bool
  notifyEmail : Bool
  smtp : Bool
  deriving Repr, DecidableEq

/-- The three real delivery channels, in priority order. -/
inductive NotifyChannel where
  | webhook
  | brevo
  | smtp
  deriving Repr, DecidableEq

/-- The per-channel success oracle: whether a channel's send would
succeed were it attempted. -/
def channelOk (okWebhook okBrevo okSmtp : Bool) : NotifyChannel → Bool
  | NotifyChannel.webhook => okWebhook
  | NotifyChannel.brevo => okBrevo
  | NotifyChannel.smtp => okSmtp

/-- What a dispatch run did: the channels attempted in order, whether
one delivered, and whether the structured fallback log line was
emitted. -/
structure NotifyOutcome where
  attempts : List NotifyChannel
  delivered : Bool
  fallbackLogged : Bool
  deriving Repr, DecidableEq

/-- `notifyNewLink` (src/server.js lines 375-465): the webhook is tried
only when configured and neither the Brevo key nor the SMTP transporter
exists; Brevo is tried when not yet delivered and key and address
exist; SMTP when still not delivered and transporter and address exist;
every channel failure is caught (the function is total), and the
structured log line fires exactly when nothing delivered. -/
def notifyNewLink (cfg : NotifyConfig)
    (okWebhook okBrevo okSmtp : Bool) : NotifyOutcome :=
  let try₁ := cfg.webhook && !cfg.brevoApiKey && !cfg.smtp
  let a₁ : List NotifyChannel := if try₁ then [NotifyChannel.webhook] else []
  let d₁ := if try₁ then okWebhook else false
  let try₂ := !d₁ && cfg.brevoApiKey && cfg.notifyEmail
  let a₂ := if try₂ then a₁ ++ [NotifyChannel.brevo] else a₁
  let d₂ := if try₂ then okBrevo else d₁
  let try₃ := !d₂ && cfg.smtp && cfg.notifyEmail
  let a₃ := if try₃ then a₂ ++ [NotifyChannel.smtp] else a₂
  let d₃ := if try₃ then okSmtp else d₂
  ⟨a₃, d₃, !d₃⟩

/-- C9: for every configuration and every success/failure combination,
channels are attempted in the fixed priority order (webhook — only when
no email channel is configured — then Brevo, then SMTP), the dispatcher
stops at the first success, delivery holds iff an attempted channel
succeeded, every pre-final attempt was a failure, and the fallback log
line fires exactly when nothing delivered — so the event is never
silently lost and no error escapes (the dispatcher is a total
function). -/
theorem notifyNewLink_channel_policy (cfg : NotifyConfig)
    (okWebhook okBrevo okSmtp : Bool) :
    (notifyNewLink cfg okWebhook okBrevo okSmtp).fallbackLogged =
      !(notifyNewLink cfg okWebhook okBrevo okSmtp).delivered ∧
    List.Sublist (notifyNewLink cfg okWebhook okBrevo okSmtp).attempts
      [NotifyChannel.webhook, NotifyChannel.brevo, NotifyChannel.smtp] ∧
    (NotifyChannel.webhook ∈ (notifyNewLink cfg okWebhook okBrevo okSmtp).attempts ↔
      cfg.webhook = true ∧ cfg.brevoApiKey = false ∧ cfg.smtp = false) ∧
    (NotifyChannel.brevo ∈ (notifyNewLink cfg okWebhook okBrevo okSmtp).attempts ↔
      cfg.brevoApiKey = true ∧ cfg.notifyEmail = true ∧
      ¬(NotifyChannel.webhook ∈
          (notifyNewLink cfg okWebhook okBrevo okSmtp).attempts ∧
        okWebhook = true)) ∧
    (NotifyChannel.smtp ∈ (notifyNewLink cfg okWebhook okBrevo okSmtp).attempts ↔
      cfg.smtp = true ∧ cfg.notifyEmail = true ∧
      ¬(NotifyChannel.webhook ∈
          (notifyNewLink cfg okWebhook okBrevo okSmtp).attempts ∧
        okWebhook = true) ∧
      ¬(NotifyChannel.brevo ∈
          (notifyNewLink cfg okWebhook okBrevo okSmtp).attempts ∧
        okBrevo = true)) ∧
    ((notifyNewLink cfg okWebhook okBrevo okSmtp).delivered = true ↔
      ∃ c ∈ (notifyNewLink cfg okWebhook okBrevo okSmtp).attempts,
        channelOk okWebhook okBrevo okSmtp c = true) ∧
    (∀ c ∈ (notifyNewLink cfg okWebhook okBrevo okSmtp).attempts.dropLast,
      channelOk okWebhook okBrevo okSmtp c = false) := by
  rcases cfg with ⟨w, b, e, s⟩
  revert w b e s okWebhook okBrevo okSmtp
  decide

/-- C9 witness: with all channels configured and only Brevo succeeding,
the webhook is skipped, Brevo delivers, SMTP is not tried, and no
fallback log fires. -/
theorem notifyNewLink_channel_policy_witness :
    (notifyNewLink ⟨true, true, true, true⟩ true true false).attempts =
      [NotifyChannel.brevo] ∧
    (notifyNewLink ⟨true, true, true, true⟩ true true false).delivered = true ∧
    ((notifyNewLink ⟨true, true, true, true⟩ true true false).fallbackLogged =
      !(notifyNewLink ⟨true, true, true, true⟩ true true false).delivered ∧
    List.Sublist (notifyNewLink ⟨true, true, true, true⟩ true true false).attempts
      [NotifyChannel.webhook, NotifyChannel.brevo, NotifyChannel.smtp] ∧
    (NotifyChannel.webhook ∈
        (notifyNewLink ⟨true, true, true, true⟩ true true false).attempts ↔
      (true : Bool) = true ∧ (true : Bool) = false ∧ (true : Bool) = false) ∧
    (NotifyChannel.brevo ∈
        (notifyNewLink ⟨true, true, true, true⟩ true true false).attempts ↔
      (true : Bool) = true ∧ (true : Bool) = true ∧
      ¬(NotifyChannel.webhook ∈
          (notifyNewLink ⟨true, true, true, true⟩ true true false).attempts ∧
        (true : Bool) = true)) ∧
    (NotifyChannel.smtp ∈
        (notifyNewLink ⟨true, true, true, true⟩ true true false).attempts ↔
      (true : Bool) = true ∧ (true : Bool) = true ∧
      ¬(NotifyChannel.webhook ∈
          (notifyNewLink ⟨true, true, true, true⟩ true true false).attempts ∧
        (true : Bool) = true) ∧
      ¬(NotifyChannel.brevo ∈
          (notifyNewLink ⟨true, true, true, true⟩ true true false).attempts ∧
        (true : Bool) = true)) ∧
    ((notifyNewLink ⟨true, true, true, true⟩ true true false).delivered = true ↔
      ∃ c ∈ (notifyNewLink ⟨true, true, true, true⟩ true true false).attempts,
        channelOk true true false c = true) ∧
    (∀ c ∈ (notifyNewLink ⟨true, true, true, true⟩ true true false).attempts.dropLast,
      channelOk true true false c = false)) :=
  ⟨by decide, by decide,
   notifyNewLink_channel_policy ⟨true, true, true, true⟩ true true false⟩

end ParshaSongs
